import Mathlib

set_option linter.unusedVariables false

/-!
Verification of the `rhythm` creative-studio web service.

Shallow embedding of the repository's Python sources:
  * `src/generators/poem_generator.py`   → `PoemGenerator.generate`
  * `src/generators/animation_generator.py` → `AnimationGenerator.generate`
  * `src/models/database.py`             → `get_db_connection`, `close_db_connection`
  * `src/app.py`                         → `generate_content`, `get_content_route`,
                                           `health_check_db`
`models/content.py` (the `ContentModel` class) and
`generators/music_generator.py` are not part of the source tree; where a
claim depends on them they are modelled from the specification and marked
as such in their doc comments.
-/

/-! ### Python string primitives -/

/-- Python whitespace characters, as used by `str.strip()`. -/
def pyIsSpace (c : Char) : Bool :=
  c = ' ' || c = '\t' || c = '\n' || c = '\r' || c = '\x0b' || c = '\x0c'

/-- Python `str.strip()`: remove leading and trailing whitespace. -/
def pyStrip (s : String) : String :=
  String.mk (((s.data.dropWhile pyIsSpace).reverse.dropWhile pyIsSpace).reverse)

/-- Python `str.capitalize()`: first character upper-cased, the rest lower-cased. -/
def pyCapitalize (s : String) : String :=
  match s.data with
  | [] => ""
  | c :: cs => String.mk (c.toUpper :: cs.map Char.toLower)

/-- Python `s.split('\n')[0]`: the text before the first newline. -/
def pyFirstLine (s : String) : String :=
  String.mk (s.data.takeWhile (fun c => c ≠ '\n'))

/-- Python `a or b` on strings: `b` when `a` is empty (falsy), else `a`. -/
def pyOrStr (a b : String) : String :=
  if a = "" then b else a

/-! ### `src/generators/poem_generator.py` -/

namespace PoemGenerator

/-- `PoemGenerator.generate(self, prompt, style=None)`: builds the `lines`
list exactly as the Python method does and joins it with `'\n'.join`.
The `style` argument is accepted and ignored, as in the source. -/
def generate (prompt : String) (style : Option String) : String :=
  let lines : List String := []
  let lines := lines ++ [pyCapitalize prompt]
  let lines := lines ++ [""]
  let lines := lines ++ ["Beneath the lights that paint the night,"]
  let lines := lines ++ ["Rhythms pulse and colors bright."]
  let lines := lines ++ ["Hands clapping, hearts in flight,"]
  let lines := lines ++ ["We dance till dawn and own the night."]
  let lines := lines ++ [""]
  let lines := lines ++ ["â€” Inspired by: " ++ prompt]
  String.intercalate "\n" lines

end PoemGenerator

/-- The fixed middle of every generated poem: blank line, four template
lines, blank line, start of the attribution line. -/
def poemTemplateMiddle : String :=
  "\n\nBeneath the lights that paint the night,\nRhythms pulse and colors bright.\nHands clapping, hearts in flight,\nWe dance till dawn and own the night.\n\nâ€” Inspired by: "

/-! ### `src/models/database.py` — per-thread connection cache -/

/-- A sqlite connection object; `isOpen` records whether `close()` has been
called on it. -/
structure Conn where
  isOpen : Bool
deriving DecidableEq

/-- The `threading.local()` state of one worker thread: the cached
`_local.connection`, `none` when unset or reset. -/
structure ThreadState where
  cached : Option Conn
deriving DecidableEq

/-- `get_db_connection` (`src/models/database.py` lines 16-28): return the
cached connection when one is present (with no check that it is still
open), otherwise connect, cache and return a fresh open connection. -/
def get_db_connection (s : ThreadState) : Conn × ThreadState :=
  match s.cached with
  | none => ({ isOpen := true }, { cached := some { isOpen := true } })
  | some c => (c, s)

/-- `close_db_connection` (`src/models/database.py` lines 30-37): close the
cached connection, if any, and reset the cache to `None`.  Closing an
already-closed sqlite connection is a no-op. -/
def close_db_connection (s : ThreadState) : ThreadState :=
  match s.cached with
  | none => s
  | some _ => { cached := none }

/-- The database part of `health_check` (`src/app.py` lines 70-93):
`conn = get_db_connection()` then `conn.close()`.  The connection object is
truthy, so it is always closed; `conn` aliases `_local.connection`, so the
cache is left holding the now-closed object, and the cache itself is not
reset. -/
def health_check_db (s : ThreadState) : ThreadState × String :=
  let p := get_db_connection s
  ({ cached := some { p.1 with isOpen := false } }, "healthy")

/-- One full `GET /api/health` request on a worker thread: the handler body
followed by the `teardown_appcontext` hook `close_db` (`src/app.py`
lines 48-51), which calls `close_db_connection()`. -/
def serve_health_request (s : ThreadState) : ThreadState :=
  close_db_connection (health_check_db s).1

/-! ### `src/generators/animation_generator.py` -/

namespace AnimationGenerator

/-- External-library context: operations delegated to the Python standard
library and to moviepy, abstracted as parameters of the embedding.
`wrap` is `textwrap.fill(text, width=30)`, `fileExists` is
`Path(p).exists()`, `audioDuration` is `AudioFileClip(p).duration`, and
`round2` is Python `round(x, 2)`. -/
structure Ctx where
  wrap : String → String
  fileExists : String → Bool
  audioDuration : String → ℚ
  round2 : ℚ → ℚ

/-- A rendered still frame: canvas size, solid background colour, and the
word-wrapped text drawn on it. -/
structure FrameImage where
  size : Nat × Nat
  color : Nat × Nat × Nat
  text : String

/-- The fixed colour palette of `generate`. -/
def palettes : List (Nat × Nat × Nat) := [(20,160,255), (200,50,120), (60,180,75), (255,150,20)]

/-- `_make_frame_image(self, text, color_rgb, size)`: a solid-colour image
with the text wrapped to width 30 drawn on it. -/
def make_frame_image (ctx : Ctx) (text : String) (color_rgb : Nat × Nat × Nat)
    (size : Nat × Nat) : FrameImage :=
  { size := size, color := color_rgb, text := ctx.wrap text }

end AnimationGenerator

namespace AnimationGenerator

/-- The video artifact produced by moviepy: the 1-second image clips in
concatenation order, the optional attached audio track (source path and
subclip length), and the total duration. -/
structure VideoArtifact where
  clips : List (FrameImage × ℚ)
  audio : Option (String × ℚ)
  duration : ℚ

/-- Everything `generate` produces: the PNG files written to the output
directory (path and image, in creation order), the final video file, and
the returned `{path, duration}` dictionary. -/
structure GenerateResult where
  frameFiles : List (String × FrameImage)
  videoFile : String
  video : VideoArtifact
  ret_path : String
  ret_duration : ℚ

/-- `AnimationGenerator.generate(self, prompt, poem_text=None,
music_path=None, uid=None)` (`src/generators/animation_generator.py`):
renders one 720×720 frame per colour of `palettes[:3]`, saves each as a
PNG, turns the frames into 1-second clips, concatenates them, attaches a
trimmed audio track when `music_path` is truthy and the file exists, and
writes the video.  `texts[i % len(texts)] or prompt` picks the frame text;
`uid or i` / `uid or 'anon'` pick the file names. -/
def generate (output_dir : String) (ctx : Ctx) (prompt : String)
    (poem_text : Option String) (music_path : Option String) (uid : Option String) :
    GenerateResult :=
  let texts : List String := [prompt, pyFirstLine (poem_text.getD "")]
  let frames : List (String × FrameImage) :=
    (palettes.take 3).enum.map (fun ip =>
      (output_dir ++ "/frame_" ++ pyOrStr (uid.getD "") (toString ip.1) ++ "_" ++
        toString ip.1 ++ ".png",
       make_frame_image ctx (pyOrStr (texts.getD (ip.1 % texts.length) "") prompt)
         ip.2 (720, 720)))
  let clips : List (FrameImage × ℚ) := frames.map (fun pf => (pf.2, (1 : ℚ)))
  let video0 : VideoArtifact :=
    { clips := clips, audio := none, duration := (clips.map Prod.snd).sum }
  let video : VideoArtifact :=
    match music_path with
    | some mp =>
      if mp ≠ "" ∧ ctx.fileExists mp then
        { video0 with audio := some (mp, min video0.duration (ctx.audioDuration mp)) }
      else video0
    | none => video0
  let out_path := output_dir ++ "/video_" ++ pyOrStr (uid.getD "") "anon" ++ ".mp4"
  { frameFiles := frames, videoFile := out_path, video := video,
    ret_path := out_path, ret_duration := ctx.round2 video.duration }

end AnimationGenerator

/-! ### spec-modelled `models/content.py` (`ContentModel`) -/

/-- One row of the `content` table, as filled in by the `save_content` call
in `generate_content`. -/
structure ContentRow where
  content_id : String
  prompt : String
  poem : Option String
  music : Option String
  animation : Option String
  user_id : String
  session_id : String
deriving DecidableEq

/-- One row of the `usage_stats` table, as filled in by the `log_usage`
calls in `generate_content`. -/
structure UsageRow where
  endpoint : String
  user_id : String
  session_id : String
  prompt : String
  success : Bool
  error_message : Option String
  response_time_ms : Nat
deriving DecidableEq

/-- The relational store: the `content` and `usage_stats` tables. -/
structure DB where
  content : List ContentRow
  usage : List UsageRow
deriving DecidableEq

/-- Modelled from the spec: `ContentModel.log_usage` (in
`models/content.py`, which is absent from the source tree) is an
"append-only insert, independent of the main save path" into the
`usage_stats` table (spec sections 3 and 4.4). -/
def ContentModel.log_usage (db : DB) (row : UsageRow) : DB :=
  { db with usage := db.usage ++ [row] }

/-- Modelled from the spec: `ContentModel.save_content` (in
`models/content.py`, which is absent from the source tree) inserts one row
recording the prompt and artifact references and returns the generated
`content_id` (spec section 4.4); like any persistence call it may instead
raise, which the embedding exposes through the `outcome` argument chosen
by the environment. -/
def ContentModel.save_content (outcome : Except String String) (db : DB)
    (prompt : String) (poem music animation : Option String)
    (user_id session_id : String) : Except String (String × DB) :=
  match outcome with
  | .ok cid =>
    .ok (cid, { db with content :=
      db.content ++ [⟨cid, prompt, poem, music, animation, user_id, session_id⟩] })
  | .error msg => .error msg

/-- Modelled from the spec: `ContentModel.get_content(id) -> record |
not-found` (spec section 4.4), a lookup by `content_id`. -/
def ContentModel.get_content (db : DB) (cid : String) : Option ContentRow :=
  db.content.find? (fun r => r.content_id == cid)

/-! ### `src/app.py` — the `/api/generate` handler -/

/-- A JSON field of the request body: absent, a string, or present with a
non-string value (on which `.strip()` raises `AttributeError`). -/
inductive JsonField where
  | absent
  | str (s : String)
  | notStr
deriving DecidableEq

/-- The decoded JSON body of a `POST /api/generate` request.  The three
style fields stand for `options.get('poem_style')` etc.; `none` means the
key (or the whole `options` object) is missing, so the handler's default
is used. -/
structure ReqBody where
  prompt : JsonField
  user_id : Option String
  session_id : Option String
  poem_style : Option String
  music_style : Option String
  animation_style : Option String

/-- An incoming request: the `request.is_json` flag and the value of
`request.get_json()` (`none` models a JSON `null` body, on which
`data.get` raises `AttributeError`). -/
structure GenRequest where
  is_json : Bool
  body : Option ReqBody

/-- One of the module-level generator objects of `src/app.py`: `None` when
initialisation failed (`unavailable`), otherwise its `generate` method,
which either returns a value or raises an exception with a message. -/
inductive Producer where
  | unavailable
  | available (f : String → String → Except String String)

/-- Whether the generator object is not `None`. -/
def Producer.avail : Producer → Bool
  | .unavailable => false
  | .available _ => true

/-- The environment of one `generate_content` call: the three generator
objects, the behaviour of this request's `save_content` call, the two
`str(uuid.uuid4())` draws, and the measured elapsed wall-clock time
`int((time.time() - start_time) * 1000)`. -/
structure Env where
  poem_gen : Producer
  music_gen : Producer
  animation_gen : Producer
  save_outcome : Except String String
  uuid1 : String
  uuid2 : String
  elapsed_ms : Nat

/-- The JSON response of `generate_content` together with its HTTP status
code.  The `results` and `errors` dictionaries are flattened into their
three possible keys each; `none` means the key is absent. -/
structure GenResponse where
  httpStatus : Nat
  status : String
  prompt : Option String
  results_poem : Option String
  results_music : Option String
  results_animation : Option String
  results_content_id : Option String
  errors_poem : Option String
  errors_music : Option String
  errors_animation : Option String
  error : Option String
  session_id : Option String
deriving DecidableEq

/-- The full observable outcome of one `generate_content` call: the
response, the database afterwards, and whether each producer's `generate`
method was actually invoked. -/
structure GenOutcome where
  response : GenResponse
  db : DB
  invoked_poem : Bool
  invoked_music : Bool
  invoked_animation : Bool
deriving DecidableEq

/-- The `except BadRequest` arm of `generate_content` (`src/app.py`
lines 195-212): log a failed usage row and answer 400 with the message. -/
def badRequestOutcome (env : Env) (db : DB) (msg prompt user_id session_id : String) :
    GenOutcome :=
  let resp : GenResponse :=
    { httpStatus := 400, status := "error", prompt := none,
      results_poem := none, results_music := none, results_animation := none,
      results_content_id := none, errors_poem := none, errors_music := none,
      errors_animation := none, error := some msg, session_id := none }
  let row : UsageRow :=
    ⟨"/api/generate", user_id, session_id, prompt, false, some msg, env.elapsed_ms⟩
  { response := resp, db := ContentModel.log_usage db row,
    invoked_poem := false, invoked_music := false, invoked_animation := false }

/-- The `except Exception` arm of `generate_content` (`src/app.py`
lines 214-239): log a failed usage row and answer 500 with a generic
message. -/
def internalErrorOutcome (env : Env) (db : DB) (prompt user_id session_id : String) :
    GenOutcome :=
  let resp : GenResponse :=
    { httpStatus := 500, status := "error", prompt := none,
      results_poem := none, results_music := none, results_animation := none,
      results_content_id := none, errors_poem := none, errors_music := none,
      errors_animation := none,
      error := some "Internal server error. Please try again.", session_id := none }
  let row : UsageRow :=
    ⟨"/api/generate", user_id, session_id, prompt, false,
      some "Internal server error", env.elapsed_ms⟩
  { response := resp, db := ContentModel.log_usage db row,
    invoked_poem := false, invoked_music := false, invoked_animation := false }

/-- One `try/except`-wrapped producer block of `generate_content`: returns
the `results` entry, the `errors` entry, and whether the producer's
`generate` method was invoked. -/
def runProducer (p : Producer) (prompt style unavailableMsg : String) :
    Option String × Option String × Bool :=
  match p with
  | .unavailable => (none, some unavailableMsg, false)
  | .available f =>
    match f prompt style with
    | .ok r => (some r, none, true)
    | .error msg => (none, some msg, true)

/-- The validated main path of `generate_content` (`src/app.py`
lines 122-193): the three wrapped producer calls, the wrapped
`save_content` call, response assembly (with `status` downgraded to
`partial_success` when `errors` is non-empty), and the success-path
`log_usage`.  `prompt` is the already-stripped, validated prompt. -/
def generateMain (env : Env) (db : DB) (data : ReqBody) (prompt : String) :
    GenOutcome :=
  let user_id := data.user_id.getD "anonymous"
  let session_id := data.session_id.getD env.uuid2
  let poemR := runProducer env.poem_gen prompt (data.poem_style.getD "festival")
    "Poem generator not available"
  let musicR := runProducer env.music_gen prompt (data.music_style.getD "celebration")
    "Music generator not available"
  let animR := runProducer env.animation_gen prompt (data.animation_style.getD "festival")
    "Animation generator not available"
  let saved :=
    match ContentModel.save_content env.save_outcome db prompt poemR.1 musicR.1 animR.1
        user_id session_id with
    | .ok (cid, db1) => (some cid, db1)
    | .error _ => (none, db)
  let hasErrors := poemR.2.1.isSome || musicR.2.1.isSome || animR.2.1.isSome
  let status := if hasErrors then "partial_success" else "success"
  let row : UsageRow :=
    ⟨"/api/generate", user_id, session_id, prompt, true, none, env.elapsed_ms⟩
  let db2 := ContentModel.log_usage saved.2 row
  let resp : GenResponse :=
    { httpStatus := 200, status := status, prompt := some prompt,
      results_poem := poemR.1, results_music := musicR.1, results_animation := animR.1,
      results_content_id := saved.1,
      errors_poem := poemR.2.1, errors_music := musicR.2.1, errors_animation := animR.2.1,
      error := none, session_id := some session_id }
  { response := resp, db := db2,
    invoked_poem := poemR.2.2, invoked_music := musicR.2.2, invoked_animation := animR.2.2 }

/-- The body of `generate_content` after `prompt`, `user_id` and
`session_id` have been read from the body (`src/app.py` lines 108-193):
strip the prompt, raise `BadRequest` when it is empty or longer than 500
characters, otherwise run the main path. -/
def generateFromBody (env : Env) (db : DB) (data : ReqBody) (rawPrompt : String) :
    GenOutcome :=
  let prompt := pyStrip rawPrompt
  let user_id := data.user_id.getD "anonymous"
  let session_id := data.session_id.getD env.uuid2
  if prompt = "" then
    badRequestOutcome env db "Prompt is required and cannot be empty" prompt user_id session_id
  else if 500 < prompt.length then
    badRequestOutcome env db "Prompt too long. Maximum 500 characters allowed" prompt user_id session_id
  else
    generateMain env db data prompt

/-- `generate_content` (`src/app.py` lines 95-239): the entry checks
(`request.is_json`, `request.get_json()`, reading `prompt` from the body)
followed by `generateFromBody`.  A non-JSON request raises `BadRequest`
with `prompt` still `''`; a `null` body or a non-string `prompt` value
raises `AttributeError`, landing in the generic 500 arm. -/
def generate_content (env : Env) (req : GenRequest) (db : DB) : GenOutcome :=
  if req.is_json = false then
    badRequestOutcome env db "Content-Type must be application/json" "" "anonymous" env.uuid1
  else
    match req.body with
    | none => internalErrorOutcome env db "" "anonymous" env.uuid1
    | some data =>
      match data.prompt with
      | .notStr => internalErrorOutcome env db "" "anonymous" env.uuid1
      | .absent => generateFromBody env db data ""
      | .str s => generateFromBody env db data s

/-- The response of the `get_content` route: HTTP status code, the record
(when found) and the error body (when not). -/
structure GetContentResponse where
  httpStatus : Nat
  content : Option ContentRow
  error : Option String
deriving DecidableEq

/-- `get_content` (`src/app.py` lines 284-302): look the record up through
`ContentModel.get_content`; 404 with an error body when absent, 200 with
the record when present. -/
def get_content_route (db : DB) (content_id : String) : GetContentResponse :=
  match ContentModel.get_content db content_id with
  | none => { httpStatus := 404, content := none, error := some "Content not found" }
  | some row => { httpStatus := 200, content := some row, error := none }

/-- A concrete external-library context for witnesses: identity wrapping,
no file exists, every audio file 5 seconds long. -/
def ctxW : AnimationGenerator.Ctx :=
  { wrap := fun t => t, fileExists := fun _ => false,
    audioDuration := fun _ => 5, round2 := fun x => x }

/-- The poem producer as wired in `src/app.py`: `poem_gen = PoemGenerator()`
and `poem_gen.generate(prompt, style)`, which always returns normally. -/
def realPoemProducer : Producer :=
  .available (fun p st => .ok (PoemGenerator.generate p (some st)))

/-- A concrete environment for witnesses and counterexamples: the real
template poem producer, a raising music producer, an available animation
producer, a succeeding save. -/
def envW : Env :=
  { poem_gen := realPoemProducer,
    music_gen := .available (fun _ _ => .error "synth backend down"),
    animation_gen := .available (fun p _ => .ok ("video for " ++ p)),
    save_outcome := .ok "cid-1",
    uuid1 := "uuid-1", uuid2 := "uuid-2", elapsed_ms := 12 }

/-- A concrete request body for witnesses and counterexamples. -/
def bodyW : ReqBody :=
  { prompt := .str " hello fest ", user_id := none, session_id := none,
    poem_style := none, music_style := none, animation_style := none }

/-- A raw prompt of 501 characters (a leading space and 500 letters) whose
stripped form has exactly 500 characters. -/
def raw501 : String :=
  " aaaaaaaaaaaaaaaaaaaaaaaaaaaaaaaaaaaaaaaaaaaaaaaaaaaaaaaaaaaaaaaaaaaaaaaaaaaaaaaaaaaaaaaaaaaaaaaaaaaaaaaaaaaaaaaaaaaaaaaaaaaaaaaaaaaaaaaaaaaaaaaaaaaaaaaaaaaaaaaaaaaaaaaaaaaaaaaaaaaaaaaaaaaaaaaaaaaaaaaaaaaaaaaaaaaaaaaaaaaaaaaaaaaaaaaaaaaaaaaaaaaaaaaaaaaaaaaaaaaaaaaaaaaaaaaaaaaaaaaaaaaaaaaaaaaaaaaaaaaaaaaaaaaaaaaaaaaaaaaaaaaaaaaaaaaaaaaaaaaaaaaaaaaaaaaaaaaaaaaaaaaaaaaaaaaaaaaaaaaaaaaaaaaaaaaaaaaaaaaaaaaaaaaaaaaaaaaaaaaaaaaaaaaaaaaaaaaaaaaaaaaaaaaaaaaaaaaaaaaaaaaaaaaaaaaaaaaaaaaaaaaaaaaaaaaaaaaaaaaa"

/-! ### Theorems about the embedded operations -/

theorem poem_generate_closed_form (prompt : String) (style : Option String) :
    PoemGenerator.generate prompt style =
      pyCapitalize prompt ++ poemTemplateMiddle ++ prompt := by
  simp only [PoemGenerator.generate, poemTemplateMiddle, String.intercalate,
    String.intercalate.go, List.nil_append, List.cons_append, List.append_nil,
    String.append_assoc]
  congr 1

set_option maxRecDepth 4000 in
theorem poem_generate_ne_empty (prompt : String) (style : Option String) :
    PoemGenerator.generate prompt style ≠ "" := by
  intro h
  rw [poem_generate_closed_form] at h
  have hlen : (pyCapitalize prompt ++ poemTemplateMiddle ++ prompt).length =
      (("") : String).length := by rw [h]
  have hpos : 0 < poemTemplateMiddle.length := by decide
  simp only [String.length_append] at hlen
  rw [show (("") : String).length = 0 from by decide] at hlen
  omega

/-! ### Reduction lemmas for `generate_content` -/

theorem generateFromBody_valid (env : Env) (db : DB) (data : ReqBody) (rawPrompt : String)
    (h1 : pyStrip rawPrompt ≠ "") (h2 : (pyStrip rawPrompt).length ≤ 500) :
    generateFromBody env db data rawPrompt = generateMain env db data (pyStrip rawPrompt) := by
  unfold generateFromBody
  rw [if_neg h1, if_neg (by omega)]

theorem generate_content_str (env : Env) (db : DB) (b : ReqBody) (s : String)
    (hp : b.prompt = .str s) :
    generate_content env ⟨true, some b⟩ db = generateFromBody env db b s := by
  simp [generate_content, hp]

theorem generate_content_valid (env : Env) (db : DB) (b : ReqBody) (s : String)
    (hp : b.prompt = .str s) (h1 : pyStrip s ≠ "") (h2 : (pyStrip s).length ≤ 500) :
    generate_content env ⟨true, some b⟩ db = generateMain env db b (pyStrip s) := by
  rw [generate_content_str env db b s hp, generateFromBody_valid env db b s h1 h2]

/-! ### Claim theorems -/

set_option maxRecDepth 10000 in
/-- C5: `PoemGenerator.generate` is a deterministic pure function of its
inputs (its embedding is a total Lean function, independent of the ignored
`style` argument): every result is the newline-join of the capitalized
prompt, a blank line, the four fixed template lines, a blank line, and a
trailing attribution line containing the original prompt; for the prompt
"a night of rhythm and colors" the result begins with
"A night of rhythm and colors". -/
theorem C5_poem_pure_template (prompt : String) (style style2 : Option String) :
    PoemGenerator.generate prompt style =
      String.intercalate "\n"
        [pyCapitalize prompt, "",
         "Beneath the lights that paint the night,",
         "Rhythms pulse and colors bright.",
         "Hands clapping, hearts in flight,",
         "We dance till dawn and own the night.",
         "", "â€” Inspired by: " ++ prompt] ∧
    PoemGenerator.generate prompt style = PoemGenerator.generate prompt style2 ∧
    PoemGenerator.generate prompt style =
      pyCapitalize prompt ++ poemTemplateMiddle ++ prompt ∧
    (∃ rest, PoemGenerator.generate "a night of rhythm and colors" none =
      "A night of rhythm and colors" ++ rest) := by
  refine ⟨rfl, rfl, poem_generate_closed_form prompt style, ?_⟩
  refine ⟨poemTemplateMiddle ++ "a night of rhythm and colors", ?_⟩
  rw [poem_generate_closed_form,
    show pyCapitalize "a night of rhythm and colors" = "A night of rhythm and colors" from by decide,
    String.append_assoc]

/-- C9 counterexample: starting from a thread with no cached connection, a
full `GET /api/health` request (handler body plus the
`teardown_appcontext` hook) leaves the cache reset to `None`, and the next
`get_db_connection` on that thread returns a fresh OPEN connection — so it
is false that every subsequent database operation on the thread runs on a
closed connection. -/
theorem C9_counterexample :
    serve_health_request ⟨none⟩ = ⟨none⟩ ∧
    (get_db_connection (serve_health_request ⟨none⟩)).1.isOpen = true := by
  exact ⟨rfl, rfl⟩

/-- C9 amended: `health_check` does close the thread-cached connection
without resetting the cache, and `get_db_connection` hands the closed
cached connection out unchecked, so database operations later in the SAME
request would use a closed connection; but the `teardown_appcontext` hook
(`close_db` in `src/app.py`) closes and resets the thread-local cache at
the end of every request, so requests that follow on the same worker
thread obtain a fresh open connection. -/
theorem C9_amended_health_connection (s : ThreadState) :
    (health_check_db s).1.cached = some ⟨false⟩ ∧
    (get_db_connection (health_check_db s).1).1.isOpen = false ∧
    (serve_health_request s).cached = none ∧
    (get_db_connection (serve_health_request s)).1.isOpen = true := by
  rcases s with ⟨_ | c⟩
  · exact ⟨rfl, rfl, rfl, rfl⟩
  · exact ⟨rfl, rfl, rfl, rfl⟩

theorem pyOrStr_self (a : String) : pyOrStr a a = a := by
  unfold pyOrStr
  split <;> rfl

theorem anim_clips (od : String) (ctx : AnimationGenerator.Ctx) (prompt : String)
    (poem_text music_path uid : Option String) :
    (AnimationGenerator.generate od ctx prompt poem_text music_path uid).video.clips =
      [(⟨(720, 720), (20, 160, 255), ctx.wrap prompt⟩, 1),
       (⟨(720, 720), (200, 50, 120),
          ctx.wrap (pyOrStr (pyFirstLine (poem_text.getD "")) prompt)⟩, 1),
       (⟨(720, 720), (60, 180, 75), ctx.wrap prompt⟩, 1)] := by
  unfold AnimationGenerator.generate
  rcases music_path with _ | mp
  · simp [AnimationGenerator.make_frame_image, AnimationGenerator.palettes, pyOrStr_self,
      List.enum, List.enumFrom, Function.comp]
  · by_cases hc : mp ≠ "" ∧ ctx.fileExists mp = true <;>
      simp [hc, AnimationGenerator.make_frame_image, AnimationGenerator.palettes, pyOrStr_self,
        List.enum, List.enumFrom, Function.comp]

theorem anim_clips_frames (od : String) (ctx : AnimationGenerator.Ctx) (prompt : String)
    (poem_text music_path uid : Option String) :
    (AnimationGenerator.generate od ctx prompt poem_text music_path uid).video.clips.map Prod.fst =
      (AnimationGenerator.generate od ctx prompt poem_text music_path uid).frameFiles.map Prod.snd := by
  unfold AnimationGenerator.generate
  rcases music_path with _ | mp
  · rfl
  · by_cases hc : mp ≠ "" ∧ ctx.fileExists mp = true <;> simp [hc]

theorem anim_colors (od : String) (ctx : AnimationGenerator.Ctx) (prompt : String)
    (poem_text music_path uid : Option String) :
    (AnimationGenerator.generate od ctx prompt poem_text music_path uid).frameFiles.map
        (fun pf => pf.2.color) =
      AnimationGenerator.palettes.take 3 := by
  unfold AnimationGenerator.generate
  rfl

theorem anim_duration (od : String) (ctx : AnimationGenerator.Ctx) (prompt : String)
    (poem_text music_path uid : Option String) :
    (AnimationGenerator.generate od ctx prompt poem_text music_path uid).video.duration = 3 := by
  unfold AnimationGenerator.generate
  rcases music_path with _ | mp
  · norm_num [AnimationGenerator.palettes, List.enum, List.enumFrom, Function.comp]
  · by_cases hc : mp ≠ "" ∧ ctx.fileExists mp = true <;>
      norm_num [hc, AnimationGenerator.palettes, List.enum, List.enumFrom, Function.comp]

theorem anim_ret_path (od : String) (ctx : AnimationGenerator.Ctx) (prompt : String)
    (poem_text music_path uid : Option String) :
    (AnimationGenerator.generate od ctx prompt poem_text music_path uid).ret_path =
      (AnimationGenerator.generate od ctx prompt poem_text music_path uid).videoFile := by
  unfold AnimationGenerator.generate
  rcases music_path with _ | mp
  · rfl
  · by_cases hc : mp ≠ "" ∧ ctx.fileExists mp = true <;> simp [hc]

theorem anim_audio_attached (od : String) (ctx : AnimationGenerator.Ctx) (prompt : String)
    (poem_text uid : Option String) (mp : String) (hne : mp ≠ "")
    (hex : ctx.fileExists mp = true) :
    (AnimationGenerator.generate od ctx prompt poem_text (some mp) uid).video.audio =
      some (mp, min 3 (ctx.audioDuration mp)) := by
  unfold AnimationGenerator.generate
  simp [hne, hex]
  norm_num [AnimationGenerator.palettes, List.enum, List.enumFrom, Function.comp]

theorem anim_audio_dropped (od : String) (ctx : AnimationGenerator.Ctx) (prompt : String)
    (poem_text uid : Option String) (mp : String) (hex : ctx.fileExists mp = false) :
    (AnimationGenerator.generate od ctx prompt poem_text (some mp) uid).video.audio = none := by
  unfold AnimationGenerator.generate
  simp [hex]

theorem anim_audio_absent (od : String) (ctx : AnimationGenerator.Ctx) (prompt : String)
    (poem_text uid : Option String) :
    (AnimationGenerator.generate od ctx prompt poem_text none uid).video.audio = none := by
  unfold AnimationGenerator.generate
  rfl

theorem anim_audio_iff (od : String) (ctx : AnimationGenerator.Ctx) (prompt : String)
    (poem_text music_path uid : Option String) :
    (AnimationGenerator.generate od ctx prompt poem_text music_path uid).video.audio.isSome = true ↔
      ∃ mp, music_path = some mp ∧ mp ≠ "" ∧ ctx.fileExists mp = true := by
  unfold AnimationGenerator.generate
  rcases music_path with _ | mp
  · simp
  · by_cases hc : mp ≠ "" ∧ ctx.fileExists mp = true
    · simp only [if_pos hc]
      refine ⟨fun _ => ⟨mp, rfl, hc.1, hc.2⟩, fun _ => rfl⟩
    · simp only [if_neg hc]
      refine ⟨fun h => absurd h (by simp), ?_⟩
      rintro ⟨mp2, heq, hne, hex⟩
      cases heq
      exact absurd ⟨hne, hex⟩ hc

/-- C6: `AnimationGenerator.generate` renders exactly 3 still 720×720
frames, with solid background colours taken in order from the fixed
4-colour palette and word-wrapped prompt/poem text overlaid, treats each
frame as a 1-second clip, concatenates the clips in frame order, and
attaches an audio track trimmed to `min(video_duration, audio_duration)`
exactly when a (truthy) music path is supplied and the file exists; when
the supplied path does not exist it still returns the video artifact with
no audio track, and — the embedding being a total function — raises no
exception. -/
theorem C6_animation_video (od : String) (ctx : AnimationGenerator.Ctx) (prompt : String)
    (poem_text music_path uid : Option String) (r : AnimationGenerator.GenerateResult)
    (hr : r = AnimationGenerator.generate od ctx prompt poem_text music_path uid) :
    r.video.clips =
      [(⟨(720, 720), (20, 160, 255), ctx.wrap prompt⟩, 1),
       (⟨(720, 720), (200, 50, 120),
          ctx.wrap (pyOrStr (pyFirstLine (poem_text.getD "")) prompt)⟩, 1),
       (⟨(720, 720), (60, 180, 75), ctx.wrap prompt⟩, 1)] ∧
    r.video.clips.map Prod.fst = r.frameFiles.map Prod.snd ∧
    r.frameFiles.map (fun pf => pf.2.color) = AnimationGenerator.palettes.take 3 ∧
    r.video.duration = 3 ∧
    r.ret_path = r.videoFile ∧
    (∀ mp, music_path = some mp → mp ≠ "" → ctx.fileExists mp = true →
      r.video.audio = some (mp, min 3 (ctx.audioDuration mp))) ∧
    (∀ mp, music_path = some mp → ctx.fileExists mp = false → r.video.audio = none) ∧
    (music_path = none → r.video.audio = none) ∧
    (r.video.audio.isSome = true ↔
      ∃ mp, music_path = some mp ∧ mp ≠ "" ∧ ctx.fileExists mp = true) := by
  subst hr
  refine ⟨anim_clips od ctx prompt poem_text music_path uid,
    anim_clips_frames od ctx prompt poem_text music_path uid,
    anim_colors od ctx prompt poem_text music_path uid,
    anim_duration od ctx prompt poem_text music_path uid,
    anim_ret_path od ctx prompt poem_text music_path uid, ?_, ?_, ?_,
    anim_audio_iff od ctx prompt poem_text music_path uid⟩
  · intro mp heq hne hex
    subst heq
    exact anim_audio_attached od ctx prompt poem_text uid mp hne hex
  · intro mp heq hex
    subst heq
    exact anim_audio_dropped od ctx prompt poem_text uid mp hex
  · intro heq
    subst heq
    exact anim_audio_absent od ctx prompt poem_text uid

theorem C6_animation_video_witness :
    (AnimationGenerator.generate "/out" ctxW "hi" (some "p\nq") (some "/absent.wav")
      none).video.audio = none ∧
    (AnimationGenerator.generate "/out" ctxW "hi" (some "p\nq") (some "/absent.wav")
      none).video.duration = 3 := by
  have h := C6_animation_video "/out" ctxW "hi" (some "p\nq") (some "/absent.wav") none _ rfl
  exact ⟨h.2.2.2.2.2.2.1 "/absent.wav" rfl rfl, h.2.2.2.1⟩

theorem runProducer_invoked (p : Producer) (prompt style msg : String)
    (h : p.avail = true) :
    (runProducer p prompt style msg).2.2 = true := by
  cases p
  · exact Bool.noConfusion h
  · rename_i f
    rcases hfe : f prompt style with r | m <;> simp [runProducer, hfe]

theorem runProducer_error (p : Producer) (prompt style msg : String)
    (f : String → String → Except String String) (emsg : String)
    (hf : p = .available f) (he : f prompt style = .error emsg) :
    (runProducer p prompt style msg).2.1 = some emsg := by
  subst hf
  simp [runProducer, he]

/-- C1: for every JSON request with a valid prompt, each producer
invocation is wrapped independently: every available producer is invoked
(regardless of what the others did), an exception raised by a producer is
recorded as that producer's entry in the `errors` map, and the response's
`status` is "partial_success" exactly when the `errors` map is non-empty
and "success" exactly when it is empty, with HTTP status 200 either way. -/
theorem C1_producer_isolation (env : Env) (db : DB) (b : ReqBody) (s : String)
    (out : GenOutcome) (hout : out = generate_content env ⟨true, some b⟩ db)
    (hp : b.prompt = .str s) (h1 : pyStrip s ≠ "") (h2 : (pyStrip s).length ≤ 500) :
    out.response.httpStatus = 200 ∧
    (env.poem_gen.avail = true → out.invoked_poem = true) ∧
    (env.music_gen.avail = true → out.invoked_music = true) ∧
    (env.animation_gen.avail = true → out.invoked_animation = true) ∧
    (∀ f msg, env.poem_gen = .available f →
      f (pyStrip s) (b.poem_style.getD "festival") = .error msg →
      out.response.errors_poem = some msg) ∧
    (∀ f msg, env.music_gen = .available f →
      f (pyStrip s) (b.music_style.getD "celebration") = .error msg →
      out.response.errors_music = some msg) ∧
    (∀ f msg, env.animation_gen = .available f →
      f (pyStrip s) (b.animation_style.getD "festival") = .error msg →
      out.response.errors_animation = some msg) ∧
    (out.response.status = "partial_success" ↔
      (out.response.errors_poem.isSome || out.response.errors_music.isSome ||
        out.response.errors_animation.isSome) = true) ∧
    (out.response.status = "success" ↔
      (out.response.errors_poem.isSome || out.response.errors_music.isSome ||
        out.response.errors_animation.isSome) = false) := by
  rw [generate_content_valid env db b s hp h1 h2] at hout
  subst hout
  have key1 : ∀ e : Bool, ((if e then "partial_success" else "success") = "partial_success" ↔
      e = true) := by
    intro e
    cases e <;> decide
  have key2 : ∀ e : Bool, ((if e then "partial_success" else "success") = "success" ↔
      e = false) := by
    intro e
    cases e <;> decide
  refine ⟨rfl, ?_, ?_, ?_, ?_, ?_, ?_, key1 _, key2 _⟩
  · exact fun h => runProducer_invoked env.poem_gen _ _ _ h
  · exact fun h => runProducer_invoked env.music_gen _ _ _ h
  · exact fun h => runProducer_invoked env.animation_gen _ _ _ h
  · exact fun f msg hf he => runProducer_error env.poem_gen _ _ _ f msg hf he
  · exact fun f msg hf he => runProducer_error env.music_gen _ _ _ f msg hf he
  · exact fun f msg hf he => runProducer_error env.animation_gen _ _ _ f msg hf he

theorem generate_content_notJson (env : Env) (body : Option ReqBody) (db : DB) :
    generate_content env ⟨false, body⟩ db =
      badRequestOutcome env db "Content-Type must be application/json" "" "anonymous" env.uuid1 :=
  rfl

theorem generate_content_nullBody (env : Env) (db : DB) :
    generate_content env ⟨true, none⟩ db =
      internalErrorOutcome env db "" "anonymous" env.uuid1 :=
  rfl

theorem generate_content_notStr (env : Env) (data : ReqBody) (db : DB)
    (h : data.prompt = .notStr) :
    generate_content env ⟨true, some data⟩ db =
      internalErrorOutcome env db "" "anonymous" env.uuid1 := by
  simp [generate_content, h]

theorem generate_content_absent (env : Env) (data : ReqBody) (db : DB)
    (h : data.prompt = .absent) :
    generate_content env ⟨true, some data⟩ db = generateFromBody env db data "" := by
  simp [generate_content, h]

theorem generateFromBody_empty (env : Env) (db : DB) (data : ReqBody) (raw : String)
    (h : pyStrip raw = "") :
    generateFromBody env db data raw =
      badRequestOutcome env db "Prompt is required and cannot be empty" (pyStrip raw)
        (data.user_id.getD "anonymous") (data.session_id.getD env.uuid2) := by
  unfold generateFromBody
  rw [if_pos h]

theorem generateFromBody_long (env : Env) (db : DB) (data : ReqBody) (raw : String)
    (h1 : pyStrip raw ≠ "") (h2 : 500 < (pyStrip raw).length) :
    generateFromBody env db data raw =
      badRequestOutcome env db "Prompt too long. Maximum 500 characters allowed" (pyStrip raw)
        (data.user_id.getD "anonymous") (data.session_id.getD env.uuid2) := by
  unfold generateFromBody
  rw [if_neg h1, if_pos h2]

theorem badRequestOutcome_spec (env : Env) (db : DB) (msg prompt u sid : String) :
    (badRequestOutcome env db msg prompt u sid).response.httpStatus = 400 ∧
    (badRequestOutcome env db msg prompt u sid).db.content = db.content ∧
    (badRequestOutcome env db msg prompt u sid).db.usage =
      db.usage ++ [⟨"/api/generate", u, sid, prompt, false, some msg, env.elapsed_ms⟩] :=
  ⟨rfl, rfl, rfl⟩

theorem internalErrorOutcome_spec (env : Env) (db : DB) (prompt u sid : String) :
    (internalErrorOutcome env db prompt u sid).response.httpStatus = 500 ∧
    (internalErrorOutcome env db prompt u sid).db.content = db.content ∧
    (internalErrorOutcome env db prompt u sid).db.usage =
      db.usage ++ [⟨"/api/generate", u, sid, prompt, false,
        some "Internal server error", env.elapsed_ms⟩] :=
  ⟨rfl, rfl, rfl⟩

theorem generateMain_usage (env : Env) (db : DB) (data : ReqBody) (prompt : String) :
    (generateMain env db data prompt).db.usage =
      db.usage ++ [⟨"/api/generate", data.user_id.getD "anonymous",
        data.session_id.getD env.uuid2, prompt, true, none, env.elapsed_ms⟩] := by
  rcases hso : env.save_outcome with m | cid <;>
    simp [generateMain, ContentModel.save_content, ContentModel.log_usage, hso]

theorem generateMain_http (env : Env) (db : DB) (data : ReqBody) (prompt : String) :
    (generateMain env db data prompt).response.httpStatus = 200 :=
  rfl

theorem badRequestOutcome_not200 (env : Env) (db : DB) (msg prompt u sid : String) :
    (badRequestOutcome env db msg prompt u sid).response.httpStatus ≠ 200 := by
  intro h
  have h400 : (400 : Nat) = 200 := h
  exact absurd h400 (by decide)

theorem internalErrorOutcome_not200 (env : Env) (db : DB) (prompt u sid : String) :
    (internalErrorOutcome env db prompt u sid).response.httpStatus ≠ 200 := by
  intro h
  have h500 : (500 : Nat) = 200 := h
  exact absurd h500 (by decide)

/-- C4: every `generate_content` request — success, partial success, 400 or
500 — appends exactly one row to `usage_stats` after handling; the row
records the measured elapsed wall-clock milliseconds, and on the error
paths it has `success = False` and an error message.
(`ContentModel.log_usage` is spec-modelled: `models/content.py` is not in
the source tree.) -/
theorem C4_usage_record (env : Env) (req : GenRequest) (db : DB)
    (out : GenOutcome) (hout : out = generate_content env req db) :
    ∃ row, out.db.usage = db.usage ++ [row] ∧
      row.endpoint = "/api/generate" ∧
      row.response_time_ms = env.elapsed_ms ∧
      (out.response.httpStatus = 200 → row.success = true ∧ row.error_message = none) ∧
      (out.response.httpStatus ≠ 200 →
        row.success = false ∧ row.error_message.isSome = true) := by
  subst hout
  rcases req with ⟨isj, body⟩
  cases isj
  · rw [generate_content_notJson]
    exact ⟨_, rfl, rfl, rfl, fun h => absurd h (badRequestOutcome_not200 _ _ _ _ _ _),
      fun _ => ⟨rfl, rfl⟩⟩
  · rcases body with _ | data
    · rw [generate_content_nullBody]
      exact ⟨_, rfl, rfl, rfl, fun h => absurd h (internalErrorOutcome_not200 _ _ _ _ _),
        fun _ => ⟨rfl, rfl⟩⟩
    · rcases hdp : data.prompt with _ | s | _
      · rw [generate_content_absent env data db hdp,
          generateFromBody_empty env db data "" (by decide)]
        exact ⟨_, rfl, rfl, rfl, fun h => absurd h (badRequestOutcome_not200 _ _ _ _ _ _),
          fun _ => ⟨rfl, rfl⟩⟩
      · rw [generate_content_str env db data s hdp]
        by_cases h1 : pyStrip s = ""
        · rw [generateFromBody_empty env db data s h1]
          exact ⟨_, rfl, rfl, rfl, fun h => absurd h (badRequestOutcome_not200 _ _ _ _ _ _),
            fun _ => ⟨rfl, rfl⟩⟩
        · by_cases h2 : 500 < (pyStrip s).length
          · rw [generateFromBody_long env db data s h1 h2]
            exact ⟨_, rfl, rfl, rfl, fun h => absurd h (badRequestOutcome_not200 _ _ _ _ _ _),
              fun _ => ⟨rfl, rfl⟩⟩
          · rw [generateFromBody_valid env db data s h1 (by omega)]
            refine ⟨_, generateMain_usage env db data (pyStrip s), rfl, rfl,
              fun _ => ⟨rfl, rfl⟩, fun h => absurd (generateMain_http env db data (pyStrip s)) h⟩
      · rw [generate_content_notStr env data db hdp]
        exact ⟨_, rfl, rfl, rfl, fun h => absurd h (internalErrorOutcome_not200 _ _ _ _ _),
          fun _ => ⟨rfl, rfl⟩⟩

set_option maxRecDepth 100000 in
theorem raw501_length : raw501.length = 501 := by decide

theorem status_if_cases (e : Bool) :
    (if e then "partial_success" else "success") = "success" ∨
    (if e then "partial_success" else "success") = "partial_success" := by
  cases e
  · exact Or.inl rfl
  · exact Or.inr rfl

theorem generateMain_poem_real (env : Env) (db : DB) (data : ReqBody) (prompt : String)
    (hpoem : env.poem_gen = realPoemProducer) :
    (generateMain env db data prompt).response.results_poem =
      some (PoemGenerator.generate prompt (some (data.poem_style.getD "festival"))) := by
  show (runProducer env.poem_gen prompt (data.poem_style.getD "festival")
    "Poem generator not available").1 = _
  rw [hpoem]
  rfl

set_option maxRecDepth 100000 in
/-- C2 counterexample: with the real poem producer wired, the one-character
prompt " " (a 1-to-500-character string) is answered 400, not 200, and the
501-character raw prompt `raw501` is answered 200, not 400 — the handler
validates the STRIPPED prompt, so the claim fails in both directions. -/
theorem C2_counterexample :
    (" ").length = 1 ∧
    (generate_content envW ⟨true, some { bodyW with prompt := .str " " }⟩
      ⟨[], []⟩).response.httpStatus = 400 ∧
    raw501.length = 501 ∧
    (generate_content envW ⟨true, some { bodyW with prompt := .str raw501 }⟩
      ⟨[], []⟩).response.httpStatus = 200 := by
  refine ⟨by decide, rfl, raw501_length, rfl⟩

/-- C2 amended: for every JSON request whose prompt field is a string, the
handler answers 400 exactly when the STRIPPED prompt is empty (which covers
a missing prompt, modelled by the final conjunct) or longer than 500
characters, and 200 otherwise; on the 200 path, with the poem producer
wired to the template generator as in `src/app.py`, the status is
`success` or `partial_success` and the poem result is present and
non-empty. -/
theorem C2_amended_valid_prompt (env : Env) (db : DB) (b : ReqBody) (s : String)
    (out : GenOutcome) (hout : out = generate_content env ⟨true, some b⟩ db)
    (hp : b.prompt = .str s) (hpoem : env.poem_gen = realPoemProducer) :
    (out.response.httpStatus = 400 ↔ (pyStrip s = "" ∨ 500 < (pyStrip s).length)) ∧
    (out.response.httpStatus = 200 ↔ ¬(pyStrip s = "" ∨ 500 < (pyStrip s).length)) ∧
    (out.response.httpStatus = 200 →
      (out.response.status = "success" ∨ out.response.status = "partial_success") ∧
      ∃ t, out.response.results_poem = some t ∧ t ≠ "") ∧
    (∀ b2 : ReqBody, b2.prompt = .absent →
      (generate_content env ⟨true, some b2⟩ db).response.httpStatus = 400) := by
  subst hout
  have habs : ∀ b2 : ReqBody, b2.prompt = .absent →
      (generate_content env ⟨true, some b2⟩ db).response.httpStatus = 400 := by
    intro b2 hb2
    rw [generate_content_absent env b2 db hb2, generateFromBody_empty env db b2 "" (by decide)]
    exact (badRequestOutcome_spec env db _ _ _ _).1
  rw [generate_content_str env db b s hp]
  by_cases h1 : pyStrip s = ""
  · rw [generateFromBody_empty env db b s h1]
    refine ⟨⟨fun _ => Or.inl h1, fun _ => rfl⟩, ?_, ?_, habs⟩
    · constructor
      · intro h
        exact absurd h (badRequestOutcome_not200 _ _ _ _ _ _)
      · intro hn
        exact absurd (Or.inl h1) hn
    · intro h
      exact absurd h (badRequestOutcome_not200 _ _ _ _ _ _)
  · by_cases h2 : 500 < (pyStrip s).length
    · rw [generateFromBody_long env db b s h1 h2]
      refine ⟨⟨fun _ => Or.inr h2, fun _ => rfl⟩, ?_, ?_, habs⟩
      · constructor
        · intro h
          exact absurd h (badRequestOutcome_not200 _ _ _ _ _ _)
        · intro hn
          exact absurd (Or.inr h2) hn
      · intro h
        exact absurd h (badRequestOutcome_not200 _ _ _ _ _ _)
    · rw [generateFromBody_valid env db b s h1 (by omega)]
      have hnot : ¬(pyStrip s = "" ∨ 500 < (pyStrip s).length) := fun hor => hor.elim h1 h2
      refine ⟨?_, iff_of_true (generateMain_http env db b (pyStrip s)) hnot, ?_, habs⟩
      · constructor
        · intro h
          have h200 : (200 : Nat) = 400 := h
          exact absurd h200 (by decide)
        · intro hor
          exact absurd hor hnot
      · intro _
        exact ⟨status_if_cases _,
          ⟨_, generateMain_poem_real env db b (pyStrip s) hpoem,
            poem_generate_ne_empty _ _⟩⟩

set_option maxRecDepth 10000 in
theorem C2_amended_valid_prompt_witness :
    (generate_content envW ⟨true, some { bodyW with prompt := .str "party" }⟩
      ⟨[], []⟩).response.httpStatus = 200 ∧
    ∃ t, (generate_content envW ⟨true, some { bodyW with prompt := .str "party" }⟩
      ⟨[], []⟩).response.results_poem = some t ∧ t ≠ "" := by
  have h := C2_amended_valid_prompt envW ⟨[], []⟩ { bodyW with prompt := .str "party" }
    "party" _ rfl rfl rfl
  have h200 : (generate_content envW ⟨true, some { bodyW with prompt := .str "party" }⟩
      ⟨[], []⟩).response.httpStatus = 200 := h.2.1.mpr (by decide)
  exact ⟨h200, (h.2.2.1 h200).2⟩

set_option maxRecDepth 10000 in
theorem C1_producer_isolation_witness :
    pyStrip " hello fest " ≠ "" ∧
    (generate_content envW ⟨true, some bodyW⟩ ⟨[], []⟩).response.httpStatus = 200 ∧
    (generate_content envW ⟨true, some bodyW⟩ ⟨[], []⟩).invoked_poem = true ∧
    (generate_content envW ⟨true, some bodyW⟩ ⟨[], []⟩).response.errors_music =
      some "synth backend down" ∧
    (generate_content envW ⟨true, some bodyW⟩ ⟨[], []⟩).response.status =
      "partial_success" := by
  have h := C1_producer_isolation envW ⟨[], []⟩ bodyW " hello fest " _ rfl rfl
    (by decide) (by decide)
  exact ⟨by decide, h.1, h.2.1 rfl,
    h.2.2.2.2.2.1 _ "synth backend down" rfl rfl,
    h.2.2.2.2.2.2.2.1.mpr rfl⟩

theorem C4_usage_record_witness :
    ∃ row, (generate_content envW ⟨false, some bodyW⟩ ⟨[], []⟩).db.usage =
        ([] : List UsageRow) ++ [row] ∧
      row.endpoint = "/api/generate" ∧
      row.response_time_ms = envW.elapsed_ms ∧
      ((generate_content envW ⟨false, some bodyW⟩ ⟨[], []⟩).response.httpStatus = 200 →
        row.success = true ∧ row.error_message = none) ∧
      ((generate_content envW ⟨false, some bodyW⟩ ⟨[], []⟩).response.httpStatus ≠ 200 →
        row.success = false ∧ row.error_message.isSome = true) :=
  C4_usage_record envW ⟨false, some bodyW⟩ ⟨[], []⟩ _ rfl

/-- C3 counterexample: the empty prompt is answered 400 with no content row,
but a `usage_stats` row IS created — so "no database row is created
(neither a content row nor any other row)" is false; and the 501-character
raw prompt `raw501` (stripped to 500 characters) is answered 200, not
400. -/
theorem C3_counterexample :
    (generate_content envW ⟨true, some { bodyW with prompt := .str "" }⟩
      ⟨[], []⟩).response.httpStatus = 400 ∧
    (generate_content envW ⟨true, some { bodyW with prompt := .str "" }⟩
      ⟨[], []⟩).db.content = [] ∧
    (generate_content envW ⟨true, some { bodyW with prompt := .str "" }⟩
      ⟨[], []⟩).db.usage.length = 1 ∧
    (generate_content envW ⟨true, some { bodyW with prompt := .str raw501 }⟩
      ⟨[], []⟩).response.httpStatus = 200 := by
  refine ⟨rfl, rfl, rfl, ?_⟩
  have h := C2_counterexample
  exact h.2.2.2

/-- C3 amended: for the empty prompt, or a 501-character prompt whose
stripped form still exceeds 500 characters, `POST /api/generate` answers
400 and creates no `content` row — but it does append exactly one
`usage_stats` row (with `success = False` and an error message), per the
always-logged usage record.  (`ContentModel` is spec-modelled:
`models/content.py` is not in the source tree.) -/
theorem C3_amended_reject_rows (env : Env) (db : DB) (b : ReqBody) (s : String)
    (out : GenOutcome) (hout : out = generate_content env ⟨true, some b⟩ db)
    (hp : b.prompt = .str s)
    (h : s = "" ∨ (s.length = 501 ∧ 500 < (pyStrip s).length)) :
    out.response.httpStatus = 400 ∧
    out.db.content = db.content ∧
    ∃ row, out.db.usage = db.usage ++ [row] ∧ row.success = false ∧
      row.error_message.isSome = true := by
  subst hout
  rw [generate_content_str env db b s hp]
  rcases h with he | ⟨h501, hlen⟩
  · subst he
    rw [generateFromBody_empty env db b "" (by decide)]
    exact ⟨rfl, rfl, _, rfl, rfl, rfl⟩
  · have h1 : pyStrip s ≠ "" := by
      intro hemp
      rw [hemp] at hlen
      exact absurd hlen (by decide)
    rw [generateFromBody_long env db b s h1 hlen]
    exact ⟨rfl, rfl, _, rfl, rfl, rfl⟩

theorem C3_amended_reject_rows_witness :
    (generate_content envW ⟨true, some { bodyW with prompt := .str "" }⟩
      ⟨[], []⟩).response.httpStatus = 400 ∧
    (generate_content envW ⟨true, some { bodyW with prompt := .str "" }⟩
      ⟨[], []⟩).db.content = (⟨[], []⟩ : DB).content ∧
    ∃ row, (generate_content envW ⟨true, some { bodyW with prompt := .str "" }⟩
        ⟨[], []⟩).db.usage = (⟨[], []⟩ : DB).usage ++ [row] ∧
      row.success = false ∧ row.error_message.isSome = true :=
  C3_amended_reject_rows envW ⟨[], []⟩ { bodyW with prompt := .str "" } "" _ rfl rfl
    (Or.inl rfl)

theorem generateMain_prompt_echo (env : Env) (db : DB) (data : ReqBody) (prompt : String) :
    (generateMain env db data prompt).response.prompt = some prompt :=
  rfl

theorem generateMain_saved_row (env : Env) (db : DB) (data : ReqBody) (prompt cid : String)
    (hso : env.save_outcome = .ok cid) :
    (generateMain env db data prompt).db.content =
      db.content ++ [⟨cid, prompt,
        (runProducer env.poem_gen prompt (data.poem_style.getD "festival")
          "Poem generator not available").1,
        (runProducer env.music_gen prompt (data.music_style.getD "celebration")
          "Music generator not available").1,
        (runProducer env.animation_gen prompt (data.animation_style.getD "festival")
          "Animation generator not available").1,
        data.user_id.getD "anonymous", data.session_id.getD env.uuid2⟩] := by
  simp [generateMain, ContentModel.save_content, ContentModel.log_usage, hso]

/-- C10: `generate_content` strips leading and trailing whitespace from the
prompt before validation, persistence and echoing: a whitespace-only
prompt is rejected 400 as empty; a raw prompt of any length — in
particular one longer than 500 characters — is accepted whenever its
stripped form is non-empty and at most 500 characters; and the value
echoed in the response and stored in the content row is the stripped form.
(`ContentModel.save_content` is spec-modelled: `models/content.py` is not
in the source tree.) -/
theorem C10_prompt_stripping (env : Env) (db : DB) (b : ReqBody) (s : String)
    (out : GenOutcome) (hout : out = generate_content env ⟨true, some b⟩ db)
    (hp : b.prompt = .str s) :
    (pyStrip s = "" → out.response.httpStatus = 400 ∧
      out.response.error = some "Prompt is required and cannot be empty") ∧
    (pyStrip s ≠ "" → (pyStrip s).length ≤ 500 →
      out.response.httpStatus = 200 ∧
      out.response.prompt = some (pyStrip s) ∧
      ∀ cid, env.save_outcome = .ok cid →
        ∃ row, out.db.content = db.content ++ [row] ∧
          row.prompt = pyStrip s ∧ row.content_id = cid) := by
  subst hout
  rw [generate_content_str env db b s hp]
  constructor
  · intro h1
    rw [generateFromBody_empty env db b s h1]
    exact ⟨rfl, rfl⟩
  · intro h1 h2
    rw [generateFromBody_valid env db b s h1 h2]
    refine ⟨generateMain_http env db b (pyStrip s),
      generateMain_prompt_echo env db b (pyStrip s), ?_⟩
    intro cid hso
    exact ⟨_, generateMain_saved_row env db b (pyStrip s) cid hso, rfl, rfl⟩

set_option maxRecDepth 10000 in
theorem C10_prompt_stripping_witness :
    pyStrip " hi " ≠ "" ∧
    (generate_content envW ⟨true, some { bodyW with prompt := .str " hi " }⟩
      ⟨[], []⟩).response.httpStatus = 200 ∧
    (generate_content envW ⟨true, some { bodyW with prompt := .str " hi " }⟩
      ⟨[], []⟩).response.prompt = some (pyStrip " hi ") ∧
    ∃ row, (generate_content envW ⟨true, some { bodyW with prompt := .str " hi " }⟩
        ⟨[], []⟩).db.content = (⟨[], []⟩ : DB).content ++ [row] ∧
      row.prompt = pyStrip " hi " ∧ row.content_id = "cid-1" := by
  have h := C10_prompt_stripping envW ⟨[], []⟩ { bodyW with prompt := .str " hi " }
    " hi " _ rfl rfl
  have h2 := h.2 (by decide) (by decide)
  exact ⟨by decide, h2.1, h2.2.1, h2.2.2 "cid-1" rfl⟩

/-- C8: an exception raised by the `save_content` persistence call is
caught and does not change the response: with the same producers and the
same valid request, the response when `save_content` raises equals the
response when it succeeds except that `results.content_id` is absent; the
HTTP status stays 200, and `status` is still determined solely by the
producers' errors map. -/
theorem C8_save_failure_swallowed (env : Env) (msg cid : String) (db : DB) (b : ReqBody)
    (s : String) (outO outE : GenOutcome)
    (hO : outO = generate_content { env with save_outcome := .ok cid } ⟨true, some b⟩ db)
    (hE : outE = generate_content { env with save_outcome := .error msg } ⟨true, some b⟩ db)
    (hp : b.prompt = .str s) (h1 : pyStrip s ≠ "") (h2 : (pyStrip s).length ≤ 500) :
    outE.response.httpStatus = 200 ∧
    outE.response = { outO.response with results_content_id := none } ∧
    outO.response.results_content_id = some cid ∧
    outE.response.results_content_id = none ∧
    outE.response.status =
      (if (outE.response.errors_poem.isSome || outE.response.errors_music.isSome ||
        outE.response.errors_animation.isSome) then "partial_success" else "success") := by
  subst hO hE
  rw [generate_content_valid _ db b s hp h1 h2, generate_content_valid _ db b s hp h1 h2]
  exact ⟨rfl, rfl, rfl, rfl, rfl⟩

theorem C8_save_failure_swallowed_witness :
    (generate_content { envW with save_outcome := .error "disk full" }
      ⟨true, some bodyW⟩ ⟨[], []⟩).response.httpStatus = 200 ∧
    (generate_content { envW with save_outcome := .error "disk full" }
        ⟨true, some bodyW⟩ ⟨[], []⟩).response =
      { (generate_content { envW with save_outcome := .ok "cid-1" }
          ⟨true, some bodyW⟩ ⟨[], []⟩).response with results_content_id := none } ∧
    (generate_content { envW with save_outcome := .ok "cid-1" }
      ⟨true, some bodyW⟩ ⟨[], []⟩).response.results_content_id = some "cid-1" ∧
    (generate_content { envW with save_outcome := .error "disk full" }
      ⟨true, some bodyW⟩ ⟨[], []⟩).response.results_content_id = none ∧
    (generate_content { envW with save_outcome := .error "disk full" }
        ⟨true, some bodyW⟩ ⟨[], []⟩).response.status =
      (if ((generate_content { envW with save_outcome := .error "disk full" }
            ⟨true, some bodyW⟩ ⟨[], []⟩).response.errors_poem.isSome ||
          (generate_content { envW with save_outcome := .error "disk full" }
            ⟨true, some bodyW⟩ ⟨[], []⟩).response.errors_music.isSome ||
          (generate_content { envW with save_outcome := .error "disk full" }
            ⟨true, some bodyW⟩ ⟨[], []⟩).response.errors_animation.isSome)
        then "partial_success" else "success") :=
  C8_save_failure_swallowed envW "disk full" "cid-1" ⟨[], []⟩ bodyW " hello fest "
    _ _ rfl rfl rfl (by decide) (by decide)

theorem find_fresh_append (l : List ContentRow) (row : ContentRow) (cid : String)
    (h : ∀ r ∈ l, r.content_id ≠ cid) (hrow : row.content_id = cid) :
    (l ++ [row]).find? (fun r => r.content_id == cid) = some row := by
  induction l with
  | nil =>
    rw [List.nil_append]
    exact List.find?_cons_of_pos _ (by simp [hrow])
  | cons a as ih =>
    have ha : ¬((a.content_id == cid) = true) := by
      simp only [beq_iff_eq]
      exact h a (List.mem_cons_self a as)
    have hstep : List.find? (fun r => r.content_id == cid) (a :: (as ++ [row])) =
        List.find? (fun r => r.content_id == cid) (as ++ [row]) :=
      List.find?_cons_of_neg _ ha
    rw [List.cons_append, hstep]
    exact ih (fun r hr => h r (List.mem_cons_of_mem a hr))

theorem get_content_route_found (db : DB) (cid : String) (row : ContentRow)
    (h : ContentModel.get_content db cid = some row) :
    get_content_route db cid = ⟨200, some row, none⟩ := by
  unfold get_content_route
  rw [h]

theorem get_content_route_notfound (db : DB) (cid : String)
    (h : ∀ r ∈ db.content, r.content_id ≠ cid) :
    get_content_route db cid = ⟨404, none, some "Content not found"⟩ := by
  have hn : ContentModel.get_content db cid = none := by
    unfold ContentModel.get_content
    rw [List.find?_eq_none]
    intro r hr
    simp only [beq_iff_eq]
    exact h r hr
  unfold get_content_route
  rw [hn]

set_option maxRecDepth 10000 in
/-- C7 counterexample: after a successful generation whose raw prompt was
" hi ", `GET /api/content/cid-1` returns 200 but the record's `prompt` is
the STRIPPED string "hi", which does not match the prompt string of the
original request (" hi ") exactly. -/
theorem C7_counterexample :
    (get_content_route (generate_content envW
        ⟨true, some { bodyW with prompt := .str " hi " }⟩ ⟨[], []⟩).db
      "cid-1").httpStatus = 200 ∧
    ((get_content_route (generate_content envW
        ⟨true, some { bodyW with prompt := .str " hi " }⟩ ⟨[], []⟩).db
      "cid-1").content.map (fun r => r.prompt)) = some "hi" ∧
    " hi " ≠ "hi" := by
  exact ⟨rfl, rfl, by decide⟩

/-- C7 amended: after a successful `POST /api/generate` that stored
`content_id = cid` into a store with no prior row for `cid`,
`GET /api/content/cid` returns 200 with a record whose `prompt` is the
STRIPPED prompt of the original request (equal to the raw prompt exactly
when it has no surrounding whitespace); for any id with no stored row the
route returns 404 with an error body.  (`ContentModel` is spec-modelled:
`models/content.py` is not in the source tree.) -/
theorem C7_amended_content_roundtrip (env : Env) (db : DB) (b : ReqBody) (s cid : String)
    (out : GenOutcome) (hout : out = generate_content env ⟨true, some b⟩ db)
    (hp : b.prompt = .str s) (h1 : pyStrip s ≠ "") (h2 : (pyStrip s).length ≤ 500)
    (hso : env.save_outcome = .ok cid)
    (hfresh : ∀ r ∈ db.content, r.content_id ≠ cid) :
    (get_content_route out.db cid).httpStatus = 200 ∧
    (∃ r, (get_content_route out.db cid).content = some r ∧
      r.prompt = pyStrip s ∧ r.content_id = cid) ∧
    (∀ cid2, (∀ r ∈ out.db.content, r.content_id ≠ cid2) →
      (get_content_route out.db cid2).httpStatus = 404 ∧
      (get_content_route out.db cid2).content = none ∧
      (get_content_route out.db cid2).error = some "Content not found") := by
  subst hout
  rw [generate_content_valid env db b s hp h1 h2]
  have hc := generateMain_saved_row env db b (pyStrip s) cid hso
  have hfound : ContentModel.get_content (generateMain env db b (pyStrip s)).db cid =
      some ⟨cid, pyStrip s,
        (runProducer env.poem_gen (pyStrip s) (b.poem_style.getD "festival")
          "Poem generator not available").1,
        (runProducer env.music_gen (pyStrip s) (b.music_style.getD "celebration")
          "Music generator not available").1,
        (runProducer env.animation_gen (pyStrip s) (b.animation_style.getD "festival")
          "Animation generator not available").1,
        b.user_id.getD "anonymous", b.session_id.getD env.uuid2⟩ := by
    unfold ContentModel.get_content
    rw [hc]
    exact find_fresh_append db.content _ cid hfresh rfl
  refine ⟨?_, ?_, ?_⟩
  · rw [get_content_route_found _ cid _ hfound]
  · exact ⟨_, by rw [get_content_route_found _ cid _ hfound], rfl, rfl⟩
  · intro cid2 hfresh2
    rw [get_content_route_notfound _ cid2 hfresh2]
    exact ⟨rfl, rfl, rfl⟩

set_option maxRecDepth 10000 in
theorem C7_amended_content_roundtrip_witness :
    (get_content_route (generate_content envW
        ⟨true, some { bodyW with prompt := .str " hi " }⟩ ⟨[], []⟩).db
      "cid-1").httpStatus = 200 ∧
    ∃ r, (get_content_route (generate_content envW
        ⟨true, some { bodyW with prompt := .str " hi " }⟩ ⟨[], []⟩).db
      "cid-1").content = some r ∧ r.prompt = pyStrip " hi " ∧ r.content_id = "cid-1" := by
  have h := C7_amended_content_roundtrip envW ⟨[], []⟩
    { bodyW with prompt := .str " hi " } " hi " "cid-1" _ rfl rfl
    (by decide) (by decide) rfl (by intro r hr; exact absurd hr (List.not_mem_nil r))
  exact ⟨h.1, h.2.1⟩
